import Mathlib

/-!
Verification of the pyrite dynamic module-import hook (`src/lib/importer.py`).

The hook registers a meta-path finder with the scripting runtime.
`EngineMetaFinder.find_spec` probes the engine's Resource Store for the key
`f"{fullname}.py"` and, on a non-empty read, returns a `ModuleSpec` carrying an
`EngineLoader`; the loader reports the virtual filename `f"{fullname}.py"` and reads the
module source from the Resource Store.  Module-level code installs the finder with
`sys.meta_path.insert(0, EngineMetaFinder())`.

Resource contents are modelled as strings of bytes; a Resource Store state maps keys to
`Option String`, with `none` for an absent key and `some ""` for an empty-but-existing
resource.
-/

/-- A Resource Store state: an opaque key/value byte store, `none` when the key is absent. -/
def Store : Type := String → Option String

/-- Modelled from the spec: `pyrite.read_resource`, the read operation of the host engine's
Resource Store (the engine implementing it is part of the repository but not under `src/`).
It returns the full byte content stored for the key; for an absent key it returns empty
content, which is what the finder's length-probe existence policy and the spec's
never-raises guarantee rely on. -/
def read_resource (store : Store) (key : String) : String :=
  (store key).getD ""

/-- `EngineLoader` (src/lib/importer.py): a `SourceLoader` holding the module's fullname. -/
structure EngineLoader : Type where
  fullname : String
  deriving DecidableEq

/-- `EngineLoader.get_filename` (src/lib/importer.py): the synthetic virtual path reported
for diagnostics, `f"{fullname}.py"`.  As in the source, the `fullname` argument supplied by
the runtime is used, not the stored field. -/
def EngineLoader.get_filename (_self : EngineLoader) (fullname : String) : String :=
  fullname ++ ".py"

/-- `EngineLoader.get_data` (src/lib/importer.py): reads the given filename from the
Resource Store, `return pyrite.read_resource(filename)`. -/
def EngineLoader.get_data (store : Store) (_self : EngineLoader) (filename : String) : String :=
  read_resource store filename

/-- `importlib.machinery.ModuleSpec` as the finder constructs it: module name plus loader. -/
structure ModuleSpec : Type where
  name : String
  loader : EngineLoader
  deriving DecidableEq

/-- `EngineMetaFinder.find_spec` (src/lib/importer.py): probes the store at
`f"{fullname}.py"` and returns `ModuleSpec(fullname, EngineLoader(fullname))` when the read
content has positive length; otherwise the function falls through, returning `none`
(Python's implicit `None`).  The `path` and `target` arguments are accepted, as in the
source, but never used. -/
def EngineMetaFinder.find_spec (store : Store) (fullname : String)
    (path : Option (List String)) (target : Option ModuleSpec) : Option ModuleSpec :=
  if (read_resource store (fullname ++ ".py")).length > 0 then
    some ⟨fullname, ⟨fullname⟩⟩
  else
    none

/-- An entry of the runtime's ordered finder list `sys.meta_path`: the engine's finder
(the Module Resolver), or one of the runtime's built-in finders, identified by an index. -/
inductive Finder : Type where
  | engine : Finder
  | builtin : Nat → Finder
  deriving DecidableEq

/-- The module-level installation statement of src/lib/importer.py,
`sys.meta_path.insert(0, EngineMetaFinder())`: one execution inserts a fresh finder at the
front of the list.  The source keeps no Finder Registration State and performs no
duplicate check. -/
def installHook (meta_path : List Finder) : List Finder :=
  Finder.engine :: meta_path

/-- Number of Module Resolver (`EngineMetaFinder`) entries in a finder list. -/
def countResolver : List Finder → Nat
  | [] => 0
  | Finder.engine :: rest => countResolver rest + 1
  | Finder.builtin _ :: rest => countResolver rest

/-- Modelled from the spec: the runtime's import search walks the ordered finder list and
takes the first hit.  Built-in finders consult the real filesystem, abstracted here as a
function `disk` from a built-in's index and a module name to its result.  The search
machinery itself belongs to the scripting runtime, not to `src/`. -/
def searchMetaPath (store : Store) (disk : Nat → String → Option ModuleSpec) :
    List Finder → String → Option ModuleSpec
  | [], _ => none
  | Finder.engine :: rest, fullname =>
    match EngineMetaFinder.find_spec store fullname none none with
    | some spec => some spec
    | none => searchMetaPath store disk rest fullname
  | Finder.builtin i :: rest, fullname =>
    match disk i fullname with
    | some spec => some spec
    | none => searchMetaPath store disk rest fullname

/-- Modelled from the spec: the runtime's `SourceLoader.get_source` machinery asks the
loader for its filename and then for the data at that filename; this is how the bytes
reach the compiler. -/
def sourceLoaderGetSource (store : Store) (loader : EngineLoader) (fullname : String) :
    String :=
  EngineLoader.get_data store loader (EngineLoader.get_filename loader fullname)

/-- Modelled from the spec: the end-to-end import through the hook — resolve the name,
then report the loader's diagnostic filename together with the source bytes delivered to
the compiler. -/
def importThrough (store : Store) (fullname : String) : Option (String × String) :=
  match EngineMetaFinder.find_spec store fullname none none with
  | some spec =>
    some (EngineLoader.get_filename spec.loader spec.name,
          sourceLoaderGetSource store spec.loader spec.name)
  | none => none

/-- Value of a decimal digit character, `none` for a non-digit. -/
def digitVal (c : Char) : Option Nat :=
  if '0' ≤ c ∧ c ≤ '9' then some (c.toNat - '0'.toNat) else none

/-- Accumulating decimal reading of a character list; `none` on any non-digit. -/
def charsToNatAux (acc : Nat) : List Char → Option Nat
  | [] => some acc
  | c :: cs =>
    match digitVal c with
    | some d => charsToNatAux (10 * acc + d) cs
    | none => none

/-- Decimal reading of a non-empty character list. -/
def charsToNat : List Char → Option Nat
  | [] => none
  | c :: cs => charsToNatAux 0 (c :: cs)

/-- Splits a character list at its first space, `none` when no space occurs. -/
def splitAtSpace : List Char → Option (List Char × List Char)
  | [] => none
  | c :: cs =>
    if c = ' ' then some ([], cs)
    else (splitAtSpace cs).map fun p => (c :: p.1, p.2)

/-- Modelled from the spec: execution of delivered module source by the runtime's compiler
(an external collaborator), restricted to the scenario's shape — a single top-level
assignment of a natural-number literal binds that name in the resulting module. -/
def execAssign (src : String) : Option (String × Nat) :=
  match splitAtSpace src.toList with
  | some (nm, '=' :: ' ' :: digits) =>
    match charsToNat digits with
    | some k => some (String.mk nm, k)
    | none => none
  | _ => none

/-- The Hook Installer as the specification words it, kept for comparison with the code's
installation: `front` inserts the Module Resolver before all existing finders, `back`
after all of them. -/
inductive Priority : Type where
  | front : Priority
  | back : Priority
  deriving DecidableEq

/-- The spec's `install(priority)` operation, for comparison with `installHook`. -/
def install_spec : Priority → List Finder → List Finder
  | Priority.front, meta_path => Finder.engine :: meta_path
  | Priority.back, meta_path => meta_path ++ [Finder.engine]

/-- Store holding one non-empty resource `"m.py"`, used as a concrete witness state. -/
def storeC4 : Store := fun k => if k = "m.py" then some "x" else none

/-- The empty store: every key absent, as after a concurrent removal of `"m.py"`. -/
def storeNone : Store := fun _ => none

/-- Store holding only an existing-but-empty resource `"mod.py"`. -/
def emptyResStore : Store := fun k => if k = "mod.py" then some "" else none

/-- Store holding only an existing-but-empty resource `"empty.mod.py"`. -/
def storeC8 : Store := fun k => if k = "empty.mod.py" then some "" else none

/-- Store agreeing with `storeC4` at `"m.py"` but differing everywhere else. -/
def storeC9 : Store := fun k => if k = "m.py" then some "x" else some "other"

/-- Store for the scenario: key `"tools.util.py"` holds the source `"VALUE = 1"`. -/
def storeC6 : Store := fun k => if k = "tools.util.py" then some "VALUE = 1" else none

/-- Claim C1, counterexample: executing the installation statement twice leaves two Module
Resolver entries in the finder list, and the second execution is not a no-op. -/
theorem c1_counterexample :
    countResolver (installHook (installHook [Finder.builtin 0])) = 2 ∧
    installHook (installHook [Finder.builtin 0]) ≠ installHook [Finder.builtin 0] := by
  decide

/-- Claim C1 (amended): each execution of the installation statement inserts a fresh Module
Resolver entry at the front with no duplicate check, so after `n` executions the finder
list holds `n` more Module Resolver entries than before; the code keeps no Finder
Registration State. -/
theorem c1_install_not_idempotent (meta_path : List Finder) (n : Nat) :
    countResolver (installHook^[n] meta_path) = n + countResolver meta_path := by
  induction n with
  | zero => simp
  | succ k ih =>
    rw [Function.iterate_succ_apply']
    simp only [installHook, countResolver, ih]
    omega

/-- Claim C2: for every module name whose backing resource is absent from the store,
`find_spec` returns no match (`none`), and — the embedding being a total function — it
never raises, so the runtime's import search continues with the next finder. -/
theorem c2_no_resource_no_match (store : Store) (n : String)
    (path : Option (List String)) (target : Option ModuleSpec)
    (h : store (n ++ ".py") = none) :
    EngineMetaFinder.find_spec store n path target = none := by
  unfold EngineMetaFinder.find_spec
  have hr : read_resource store (n ++ ".py") = "" := by
    simp [read_resource, h]
  rw [hr]
  rfl

/-- Claim C2, witness: the empty store at the concrete name `"missing.mod"`. -/
theorem c2_witness :
    storeNone ("missing.mod" ++ ".py") = none ∧
    EngineMetaFinder.find_spec storeNone "missing.mod" none none = none :=
  ⟨rfl, c2_no_resource_no_match storeNone "missing.mod" none none rfl⟩

/-- Claim C3, counterexample: the resource `"mod.py"` exists (the store maps it to empty
content), yet `find_spec` returns no descriptor for `"mod"` — refuting the claim that
every module name with an existing resource resolves. -/
theorem c3_counterexample :
    emptyResStore "mod.py" = some "" ∧
    EngineMetaFinder.find_spec emptyResStore "mod" none none = none := by
  exact ⟨rfl, rfl⟩

/-- Claim C3 (amended): for every module name `n` whose resource exists with non-empty
content, `find_spec` returns a descriptor for `n`, and the loader's virtual (diagnostic)
path for it is `n` with the fixed suffix `".py"` appended — a pure function of the name. -/
theorem c3_nonempty_resource_resolves (store : Store) (n : String)
    (path : Option (List String)) (target : Option ModuleSpec) (c : String)
    (h : store (n ++ ".py") = some c) (hc : c ≠ "") :
    EngineMetaFinder.find_spec store n path target = some ⟨n, ⟨n⟩⟩ ∧
    EngineLoader.get_filename ⟨n⟩ n = n ++ ".py" := by
  constructor
  · unfold EngineMetaFinder.find_spec
    have hr : read_resource store (n ++ ".py") = c := by
      simp [read_resource, h]
    rw [hr]
    have hlen : c.length > 0 := by
      cases c with
    | mk data =>
        cases data with
        | nil => exact absurd rfl hc
        | cons a as => simp [String.length]
    exact if_pos hlen
  · rfl

/-- Claim C3, witness: the store holding the non-empty resource `"m.py"`. -/
theorem c3_witness :
    storeC4 ("m" ++ ".py") = some "x" ∧ "x" ≠ "" ∧
    (EngineMetaFinder.find_spec storeC4 "m" none none = some ⟨"m", ⟨"m"⟩⟩ ∧
     EngineLoader.get_filename ⟨"m"⟩ "m" = "m" ++ ".py") :=
  ⟨rfl, by decide, c3_nonempty_resource_resolves storeC4 "m" none none "x" rfl (by decide)⟩

/-- Claim C4, counterexample: `"m.py"` resolves successfully against `storeC4`, the store
then mutates to hold nothing, and the loader's `get_data` returns empty bytes as a normal
result — the empty module source — instead of failing with any `ResourceUnavailable`
error (no such error exists in the code). -/
theorem c4_counterexample :
    EngineMetaFinder.find_spec storeC4 "m" none none = some ⟨"m", ⟨"m"⟩⟩ ∧
    EngineLoader.get_data storeNone ⟨"m"⟩ "m.py" = "" := by
  exact ⟨rfl, rfl⟩

/-- Claim C4 (amended): for every descriptor obtained from a successful resolve, a later
load against the (possibly mutated) store returns exactly the key's current content —
empty bytes when the resource vanished, never stale bytes — and raises no error. -/
theorem c4_load_returns_current_content (store mutated : Store) (n : String)
    (path : Option (List String)) (target : Option ModuleSpec) (spec : ModuleSpec)
    (h : EngineMetaFinder.find_spec store n path target = some spec) :
    sourceLoaderGetSource mutated spec.loader spec.name = (mutated (n ++ ".py")).getD "" := by
  unfold EngineMetaFinder.find_spec at h
  split at h
  · cases h
    rfl
  · exact Option.noConfusion h

/-- Claim C4, witness: resolve `"m"` against `storeC4`, then load against the emptied
store. -/
theorem c4_witness :
    EngineMetaFinder.find_spec storeC4 "m" none none = some ⟨"m", ⟨"m"⟩⟩ ∧
    sourceLoaderGetSource storeNone (⟨"m"⟩ : EngineLoader) "m" =
      (storeNone ("m" ++ ".py")).getD "" :=
  ⟨rfl, c4_load_returns_current_content storeC4 storeNone "m" none none ⟨"m", ⟨"m"⟩⟩ rfl⟩

/-- Claim C5, counterexample: the code's installation statement takes no priority; at the
concrete finder list `[builtin 0]` it puts the Module Resolver at the front, which differs
from the `back` placement the claim requires to be available. -/
theorem c5_counterexample :
    installHook [Finder.builtin 0] = [Finder.engine, Finder.builtin 0] ∧
    installHook [Finder.builtin 0] ≠ install_spec Priority.back [Finder.builtin 0] := by
  decide

/-- Claim C5 (amended): installation is unparameterized and always inserts the Module
Resolver at index 0, so it is consulted before the runtime's built-in finders and a
Resource-Store module shadows any same-named disk module; no `back` mode exists. -/
theorem c5_install_always_front (store : Store) (disk : Nat → String → Option ModuleSpec)
    (meta_path : List Finder) (n : String)
    (h : (read_resource store (n ++ ".py")).length > 0) :
    installHook meta_path = Finder.engine :: meta_path ∧
    searchMetaPath store disk (installHook meta_path) n = some ⟨n, ⟨n⟩⟩ := by
  refine ⟨rfl, ?_⟩
  have hfs : EngineMetaFinder.find_spec store n none none = some ⟨n, ⟨n⟩⟩ := by
    unfold EngineMetaFinder.find_spec
    exact if_pos h
  show searchMetaPath store disk (Finder.engine :: meta_path) n = some ⟨n, ⟨n⟩⟩
  unfold searchMetaPath
  rw [hfs]

/-- Claim C5, witness: with `"m.py"` present and non-empty, installing over `[builtin 0]`
places the resolver first and the search yields the Resource-Store module. -/
theorem c5_witness :
    (read_resource storeC4 ("m" ++ ".py")).length > 0 ∧
    (installHook [Finder.builtin 0] = Finder.engine :: [Finder.builtin 0] ∧
     searchMetaPath storeC4 (fun _ _ => none) (installHook [Finder.builtin 0]) "m" =
       some ⟨"m", ⟨"m"⟩⟩) :=
  ⟨by decide, c5_install_always_front storeC4 (fun _ _ => none) [Finder.builtin 0] "m"
    (by decide)⟩

/-- Claim C6: with key `"tools.util.py"` holding `"VALUE = 1"`, importing `"tools.util"`
through the hook succeeds, reports the diagnostic path `"tools.util.py"`, delivers the
source `"VALUE = 1"` to the compiler, and executing that source binds `VALUE` to `1`. -/
theorem c6_scenario :
    importThrough storeC6 "tools.util" = some ("tools.util.py", "VALUE = 1") ∧
    execAssign "VALUE = 1" = some ("VALUE", 1) := by
  decide

/-- Claim C7: for every descriptor obtained from a successful resolve, loading through the
runtime's source-loader machinery against the same (unmutated) store returns byte-for-byte
what a direct read of the same resource key returns. -/
theorem c7_load_matches_read (store : Store) (n : String)
    (path : Option (List String)) (target : Option ModuleSpec) (spec : ModuleSpec)
    (h : EngineMetaFinder.find_spec store n path target = some spec) :
    sourceLoaderGetSource store spec.loader spec.name = read_resource store (n ++ ".py") := by
  unfold EngineMetaFinder.find_spec at h
  split at h
  · cases h
    rfl
  · exact Option.noConfusion h

/-- Claim C7, witness: the concrete store holding `"m.py" ↦ "x"`. -/
theorem c7_witness :
    EngineMetaFinder.find_spec storeC4 "m" none none = some ⟨"m", ⟨"m"⟩⟩ ∧
    sourceLoaderGetSource storeC4 (⟨"m"⟩ : EngineLoader) "m" =
      read_resource storeC4 ("m" ++ ".py") :=
  ⟨rfl, c7_load_matches_read storeC4 "m" none none ⟨"m", ⟨"m"⟩⟩ rfl⟩

/-- Claim C8: for every module name whose resource exists but is empty, `find_spec`
returns no match — at the resolver's interface an empty-but-existing resource behaves
exactly like a missing one, because existence is decided by the length probe. -/
theorem c8_empty_resource_no_match (store : Store) (n : String)
    (path : Option (List String)) (target : Option ModuleSpec)
    (h : store (n ++ ".py") = some "") :
    EngineMetaFinder.find_spec store n path target = none := by
  unfold EngineMetaFinder.find_spec
  have hr : read_resource store (n ++ ".py") = "" := by
    simp [read_resource, h]
  rw [hr]
  rfl

/-- Claim C8, witness: the store holding only the empty resource `"empty.mod.py"`. -/
theorem c8_witness :
    storeC8 ("empty.mod" ++ ".py") = some "" ∧
    EngineMetaFinder.find_spec storeC8 "empty.mod" none none = none :=
  ⟨rfl, c8_empty_resource_no_match storeC8 "empty.mod" none none rfl⟩

/-- Claim C9: resolution and load address the same resource key: the loader's diagnostic
filename is `n ++ ".py"`, and both `find_spec` and the load path depend on the store only
through its value at that one key — two stores agreeing there are indistinguishable. -/
theorem c9_same_key (n : String) (path : Option (List String)) (target : Option ModuleSpec)
    (loader : EngineLoader) (s₁ s₂ : Store)
    (h : s₁ (n ++ ".py") = s₂ (n ++ ".py")) :
    EngineLoader.get_filename loader n = n ++ ".py" ∧
    EngineMetaFinder.find_spec s₁ n path target = EngineMetaFinder.find_spec s₂ n path target ∧
    sourceLoaderGetSource s₁ loader n = sourceLoaderGetSource s₂ loader n := by
  refine ⟨rfl, ?_, ?_⟩
  · unfold EngineMetaFinder.find_spec read_resource
    rw [h]
  · unfold sourceLoaderGetSource EngineLoader.get_data EngineLoader.get_filename
      read_resource
    rw [h]

/-- Claim C9, witness: `storeC4` and `storeC9` agree at `"m.py"` and nowhere else. -/
theorem c9_witness :
    storeC4 ("m" ++ ".py") = storeC9 ("m" ++ ".py") ∧
    (EngineLoader.get_filename ⟨"m"⟩ "m" = "m" ++ ".py" ∧
     EngineMetaFinder.find_spec storeC4 "m" none none =
       EngineMetaFinder.find_spec storeC9 "m" none none ∧
     sourceLoaderGetSource storeC4 ⟨"m"⟩ "m" = sourceLoaderGetSource storeC9 ⟨"m"⟩ "m") :=
  ⟨rfl, c9_same_key "m" none none ⟨"m"⟩ storeC4 storeC9 rfl⟩

/-- Claim C10: resolution is deterministic in the module name alone — for a fixed store,
`find_spec` returns the same result whatever the `path` and `target` arguments are. -/
theorem c10_path_target_irrelevant (store : Store) (n : String)
    (p₁ p₂ : Option (List String)) (t₁ t₂ : Option ModuleSpec) :
    EngineMetaFinder.find_spec store n p₁ t₁ = EngineMetaFinder.find_spec store n p₂ t₂ :=
  rfl
